import Mathlib

/-!
Shallow embedding of the adb_loader workload generator (files `src/arangodb.rs`,
`src/crud.rs`, `src/config.rs`) and proofs about its Topology Reconciler,
Document Synthesizer, Load Scheduler and Cluster Gateway.

Modelling conventions:
* HTTP transport outcomes are passed in explicitly: a gateway operation takes
  the `Except ReqwestError HttpResponse` produced by the network for the one
  request it sends, and returns what the Rust function returns.
* Rust panics (vector index out of bounds, integer division by zero) are
  modelled as `Option`/`none`.
* Machine integers (`u32`) are modelled as `Nat`. The source's only
  subtractions are `saturating_sub` (truncated `Nat` subtraction) and the
  batch-end expression `start + BATCH_SIZE - 1`, whose `u32` arithmetic can
  overflow; that expression is modelled with explicit wrapping modulo `2^32`
  (`wrap32`), matching release-mode semantics — debug builds panic at the
  same inputs, so either way the unbounded value is not produced.
* Randomness is passed in explicitly (an `RngState` giving the drawn number,
  boolean and characters); the Rust `Alphanumeric` sampler always produces a
  string of exactly the requested length, which the model keeps as the map of
  a character source over `List.range length`.
-/

/-- HTTP status code, as carried by `reqwest::StatusCode`. -/
structure StatusCode where
  code : Nat
deriving DecidableEq, Repr

/-- Mirror of `reqwest::StatusCode::is_success`: the 2xx range. -/
def StatusCode.is_success (s : StatusCode) : Bool :=
  200 ≤ s.code && s.code < 300

/-- An HTTP response as observed by the Rust code: a status and a body text. -/
structure HttpResponse where
  status : StatusCode
  body : String
deriving DecidableEq, Repr

/-- A transport-level failure (`reqwest::Error`), carrying only a message in
the model. -/
structure ReqwestError where
  message : String
deriving DecidableEq, Repr

/-- Mirror of `enum ArangoError` in `src/arangodb.rs`. -/
inductive ArangoError where
  | DatabaseExists (name : String)
  | DatabaseNotFound (name : String)
  | CollectionExists (name : String)
  | RequestError (e : ReqwestError)
  | InvalidResponse (msg : String)
deriving DecidableEq, Repr

/-- Mirror of `struct DatabaseConfig` in `src/config.rs` (the `prefix` field is
called `prefixStr` here). -/
structure DatabaseConfig where
  endpoints : List String
  username : String
  password : String
  prefixStr : String
deriving DecidableEq, Repr

/-- Mirror of `struct CrudConfig` in `src/config.rs` (the optional `comment`
field is omitted; it is never read). -/
structure CrudConfig where
  number_of_collections : Nat
  number_of_shards : Nat
  replication_factor : Nat
  number_of_documents : Nat
  document_size : Nat
  drop_first : Bool
  insert_concurrency : Nat
deriving DecidableEq, Repr

/-- Substring test on character lists, used to model Rust's
`str::contains(&str)`. -/
def char_list_infix (needle : List Char) : List Char → Bool
  | [] => needle.isEmpty
  | c :: rest => needle.isPrefixOf (c :: rest) || char_list_infix needle rest

/-- Mirror of `error_text.contains(pat)` for a string pattern. -/
def str_contains (haystack pat : String) : Bool :=
  char_list_infix pat.data haystack.data

/-! ### Cluster Gateway (`src/arangodb.rs`)

Each operation is split into the URL it addresses (selection of the entry
point, where `config.endpoints[0]` is a panicking index, modelled by
`Option`) and the handling of the transport outcome. -/

/-- URL built by `create_database`: `format!("{}/_api/database",
config.endpoints[0])`. -/
def create_database_url (config : DatabaseConfig) : Option String :=
  (config.endpoints[0]?).map (fun ep => ep ++ "/_api/database")

/-- URL built by `drop_database`: `format!("{}/_api/database/{}",
config.endpoints[0], db_name)`. -/
def drop_database_url (config : DatabaseConfig) (db_name : String) : Option String :=
  (config.endpoints[0]?).map (fun ep => ep ++ "/_api/database/" ++ db_name)

/-- URL built by `database_exists`:
`format!("{}/_db/{}/_api/database/current", config.endpoints[0], db_name)`. -/
def database_exists_url (config : DatabaseConfig) (db_name : String) : Option String :=
  (config.endpoints[0]?).map (fun ep => ep ++ "/_db/" ++ db_name ++ "/_api/database/current")

/-- URL built by `collection_exists`:
`format!("{}/_db/{}/_api/collection/{}", config.endpoints[0], db_name,
collection_name)`. -/
def collection_exists_url (config : DatabaseConfig) (db_name collection_name : String) :
    Option String :=
  (config.endpoints[0]?).map
    (fun ep => ep ++ "/_db/" ++ db_name ++ "/_api/collection/" ++ collection_name)

/-- URL built by `create_collection`: `format!("{}/_db/{}/_api/collection",
config.endpoints[0], db_name)`. -/
def create_collection_url (config : DatabaseConfig) (db_name : String) : Option String :=
  (config.endpoints[0]?).map (fun ep => ep ++ "/_db/" ++ db_name ++ "/_api/collection")

/-- Response handling of `create_database` in `src/arangodb.rs`: `?` on the
transport outcome, success check, 409+duplicate maps to `DatabaseExists`,
other non-success statuses map to `InvalidResponse`. -/
def create_database (db_name : String) (resp : Except ReqwestError HttpResponse) :
    Except ArangoError Unit :=
  match resp with
  | .error e => .error (.RequestError e)
  | .ok response =>
    if response.status.is_success then
      .ok ()
    else
      if response.status.code == 409 && str_contains response.body "duplicate" then
        .error (.DatabaseExists db_name)
      else
        .error (.InvalidResponse ("Failed to create database: "
          ++ toString response.status.code ++ " - " ++ response.body))

/-- Response handling of `drop_database` in `src/arangodb.rs`: 404 maps to
`DatabaseNotFound`, other non-success statuses to `InvalidResponse`. -/
def drop_database (db_name : String) (resp : Except ReqwestError HttpResponse) :
    Except ArangoError Unit :=
  match resp with
  | .error e => .error (.RequestError e)
  | .ok response =>
    if response.status.is_success then
      .ok ()
    else
      if response.status.code == 404 then
        .error (.DatabaseNotFound db_name)
      else
        .error (.InvalidResponse ("Failed to delete database: "
          ++ toString response.status.code ++ " - " ++ response.body))

/-- Response handling of `database_exists` in `src/arangodb.rs`: the `?` on
`send()` propagates a transport failure as `RequestError`; a received response
is reduced to `Ok(status.is_success())`. -/
def database_exists (resp : Except ReqwestError HttpResponse) : Except ArangoError Bool :=
  match resp with
  | .error e => .error (.RequestError e)
  | .ok response => .ok response.status.is_success

/-- Response handling of `collection_exists` in `src/arangodb.rs`; same shape
as `database_exists`. -/
def collection_exists (resp : Except ReqwestError HttpResponse) : Except ArangoError Bool :=
  match resp with
  | .error e => .error (.RequestError e)
  | .ok response => .ok response.status.is_success

/-- Response handling of `create_collection` in `src/arangodb.rs`:
409+duplicate maps to `CollectionExists`. -/
def create_collection (collection_name : String) (resp : Except ReqwestError HttpResponse) :
    Except ArangoError Unit :=
  match resp with
  | .error e => .error (.RequestError e)
  | .ok response =>
    if response.status.is_success then
      .ok ()
    else
      if response.status.code == 409 && str_contains response.body "duplicate" then
        .error (.CollectionExists collection_name)
      else
        .error (.InvalidResponse ("Failed to create collection: "
          ++ toString response.status.code ++ " - " ++ response.body))

/-! ### Document Synthesizer (`generate_document` in `src/crud.rs`) -/

/-- JSON values as used by the generated documents. -/
inductive JsonValue where
  | str (s : String)
  | num (n : Int)
  | bool (b : Bool)
deriving DecidableEq, Repr

/-- Random draws consumed by one call of `generate_document`: the `i32`, the
`bool`, and the character source backing `Alphanumeric.sample_string`. -/
structure RngState where
  num : Int
  boolVal : Bool
  chars : Nat → Char

/-- Mirror of `generate_random_ascii(length)`: a string of exactly `length`
characters drawn from the random character source. -/
def generate_random_ascii (chars : Nat → Char) (length : Nat) : String :=
  String.mk ((List.range length).map chars)

/-- Mirror of `generate_document(key, target_size, num_attributes)` in
`src/crud.rs`. The Rust `HashMap` is modelled as the association list in
insertion order. `remaining_size / num_attributes` is a `u32` division that
panics when `num_attributes == 0`; the panic is modelled as `none`.
`target_size.saturating_sub(50)` is truncated `Nat` subtraction. -/
def generate_document (rng : RngState) (key target_size num_attributes : Nat) :
    Option (List (String × JsonValue)) :=
  let base : List (String × JsonValue) :=
    [("_key", .str ("K" ++ toString key)),
     ("number", .num rng.num),
     ("bool", .bool rng.boolVal)]
  let remaining_size := target_size - 50
  if num_attributes = 0 then
    none
  else
    let size_per_attr := remaining_size / num_attributes
    some (base ++ (List.range' 1 num_attributes).map
      (fun i => ("a" ++ toString i, .str (generate_random_ascii rng.chars size_per_attr))))

/-- Lengths of the filler string attributes of a generated document: the
string-valued fields other than `_key`. -/
def filler_lengths (doc : List (String × JsonValue)) : List Nat :=
  doc.filterMap (fun p =>
    match p.2 with
    | .str s => if p.1 = "_key" then none else some s.length
    | _ => none)

/-! ### Load Scheduler (`insert_documents` in `src/crud.rs`) -/

/-- Mirror of `Iterator::step_by(k)`: keeps the elements at indices
`0, k, 2k, ...` of the underlying sequence. -/
def step_by (k : Nat) (l : List α) : List α :=
  ((l.enum).filter (fun p => p.1 % k == 0)).map Prod.snd

/-- Wrapping of a `u32` intermediate result: reduction modulo `2^32`. -/
def wrap32 (x : Nat) : Nat := x % 4294967296

/-- Batch ranges built by `insert_documents`:
`(1..=num_documents).step_by(BATCH_SIZE).map(|start| (start, (start + BATCH_SIZE - 1).min(num_documents)))`
with `BATCH_SIZE = 1000`. The end expression is `u32` arithmetic evaluated
left to right: `start + BATCH_SIZE` wraps modulo `2^32`, and the following
`- 1` is `u32` wrapping subtraction, modelled as adding `2^32 - 1` modulo
`2^32`. -/
def batch_ranges (num_documents : Nat) : List (Nat × Nat) :=
  (step_by 1000 (List.range' 1 num_documents)).map
    (fun start =>
      (start, min (wrap32 (wrap32 (start + 1000) + 4294967295)) num_documents))

/-- Insert URLs prepared by `insert_documents`, one per configured entry
point: `format!("{}/_db/{}/_api/document/{}", ep, db_name, collection_name)`
mapped over `db_config.endpoints`. -/
def insert_document_urls (db_config : DatabaseConfig) (db_name collection_name : String) :
    List String :=
  db_config.endpoints.map
    (fun ep => ep ++ "/_db/" ++ db_name ++ "/_api/document/" ++ collection_name)

/-- Outcome of one batch task in `insert_documents`: `?` on the transport
outcome of the `POST`, then a non-success status becomes the
`Failed to insert documents` error, a success status becomes `Ok(())`. -/
def insert_batch_result (resp : Except ReqwestError HttpResponse) : Except String Unit :=
  match resp with
  | .error e => .error e.message
  | .ok response =>
    if response.status.is_success then
      .ok ()
    else
      .error ("Failed to insert documents: " ++ toString response.status.code
        ++ " - " ++ response.body)

/-- Mirror of `.collect::<anyhow::Result<Vec<()>>>()` on the list of all batch
results: the first `Err` in result order, otherwise `Ok` of all values. -/
def collect_results : List (Except String Unit) → Except String (List Unit)
  | [] => .ok []
  | .ok u :: rest => (collect_results rest).map (fun l => u :: l)
  | .error e :: _ => .error e

/-- The list of per-batch results gathered by
`.collect::<Vec<anyhow::Result<()>>>().await`: every batch range is attempted
(the stream is fully drained before any result is inspected), and `env` gives
the transport outcome of each batch's request. -/
def insert_results (env : Nat × Nat → Except ReqwestError HttpResponse)
    (num_documents : Nat) : List (Except String Unit) :=
  (batch_ranges num_documents).map (fun b => insert_batch_result (env b))

/-- Mirror of the tail of `insert_documents`: drain all batches, then convert
the result vector with `collect::<anyhow::Result<Vec<()>>>()?` and return
`Ok(())`. -/
def insert_documents (env : Nat × Nat → Except ReqwestError HttpResponse)
    (num_documents : Nat) : Except String Unit :=
  match collect_results (insert_results env num_documents) with
  | .ok _ => .ok ()
  | .error e => .error e

/-- Specification-side helper: the first error in a list of results. -/
def first_error : List (Except String Unit) → Option String
  | [] => none
  | .ok _ :: rest => first_error rest
  | .error e :: _ => some e

/-! ### Topology Reconciler (`initialize_database_and_collections` in
`src/crud.rs`)

The reconciler's interaction with the cluster is embedded as a trace of
gateway calls computed from a read-only cluster state: all existence checks
in the source happen before any mutation, and the claims under proof concern
the success path, on which every mutation call returns `Ok`. -/

/-- Cluster state observed by the reconciler's existence checks. -/
structure ClusterState where
  db_exists : Bool
  existing_colls : List String
deriving DecidableEq, Repr

/-- One gateway call issued by the reconciler pass. -/
inductive Call where
  | databaseExistsC (db : String)
  | collectionExistsC (db coll : String)
  | dropDatabaseC (db : String)
  | createDatabaseC (db : String)
  | createCollectionC (db coll : String) (shards repl : Nat)
  | insertDocumentsC (db coll : String) (numDocs : Nat)
deriving DecidableEq, Repr

/-- Collection name used by the reconciler: `format!("c{}", i)`. -/
def coll_name (i : Nat) : String := "c" ++ toString i

/-- Mirror of the collection-existence loop
`for i in 1..=number_of_collections { if !collection_exists(..) { all = false; break } }`,
evaluated over the list of indices still to visit. Returns the
`all_collections_exist` flag and the existence-check calls actually made
(the loop stops at the first missing collection). -/
def check_collections (state : ClusterState) (db_name : String) :
    List Nat → Bool × List Call
  | [] => (true, [])
  | i :: rest =>
    if state.existing_colls.contains (coll_name i) then
      let r := check_collections state db_name rest
      (r.1, Call.collectionExistsC db_name (coll_name i) :: r.2)
    else
      (false, [Call.collectionExistsC db_name (coll_name i)])

/-- Mirror of the creation loop of `initialize_database_and_collections`:
`for i in 1..=number_of_collections { create_collection(..); insert_documents(..) }`,
as the calls it issues. -/
def create_and_populate (db_name : String) (crud_config : CrudConfig) : List Call :=
  (List.range' 1 crud_config.number_of_collections).flatMap (fun i =>
    [Call.createCollectionC db_name (coll_name i)
       crud_config.number_of_shards crud_config.replication_factor,
     Call.insertDocumentsC db_name (coll_name i) crud_config.number_of_documents])

/-- Mirror of `initialize_database_and_collections` in `src/crud.rs`:
returns the boolean result (`true` when the database already existed with all
collections) and the trace of gateway calls of the pass. -/
def initialize_database_and_collections (state : ClusterState)
    (db_config : DatabaseConfig) (crud_config : CrudConfig) : Bool × List Call :=
  let db_name := db_config.prefixStr ++ "crud"
  if state.db_exists then
    if !crud_config.drop_first then
      let r := check_collections state db_name
        (List.range' 1 crud_config.number_of_collections)
      if r.1 then
        (true, Call.databaseExistsC db_name :: r.2)
      else
        (false, Call.databaseExistsC db_name :: r.2
          ++ Call.dropDatabaseC db_name :: Call.createDatabaseC db_name
          :: create_and_populate db_name crud_config)
    else
      (false, [Call.databaseExistsC db_name, Call.dropDatabaseC db_name,
        Call.createDatabaseC db_name] ++ create_and_populate db_name crud_config)
  else
    (false, [Call.databaseExistsC db_name, Call.createDatabaseC db_name]
      ++ create_and_populate db_name crud_config)

/-- Recognizer for create-collection calls. -/
def Call.is_create_collection : Call → Bool
  | .createCollectionC _ _ _ _ => true
  | _ => false

/-- Recognizer for document-insertion calls. -/
def Call.is_insert_documents : Call → Bool
  | .insertDocumentsC _ _ _ => true
  | _ => false

/-- Recognizer for the mutating gateway calls: create/drop database, create
collection, insert documents. -/
def Call.is_mutation : Call → Bool
  | .createDatabaseC _ => true
  | .dropDatabaseC _ => true
  | .createCollectionC _ _ _ _ => true
  | .insertDocumentsC _ _ _ => true
  | _ => false

/-- The strong phase-separation property: every create-collection call of the
trace precedes every document-insertion call of the trace. -/
def creates_precede_inserts (t : List Call) : Prop :=
  ∀ (i j : Fin t.length), (t.get i).is_create_collection = true →
    (t.get j).is_insert_documents = true → (i : Nat) < (j : Nat)

/-- The phase-separation property is decidable, so it can be evaluated on a
concrete trace. -/
instance creates_precede_inserts_dec (t : List Call) :
    Decidable (creates_precede_inserts t) := by
  unfold creates_precede_inserts
  infer_instance

/-- Per-collection precedence: every document-insertion call into a
collection is preceded in the trace by a create call for that collection. -/
def each_insert_preceded_by_create (t : List Call) : Prop :=
  ∀ (j : Nat) (db c : String) (n : Nat), t[j]? = some (Call.insertDocumentsC db c n) →
    ∃ (i sh rp : Nat), i < j ∧ t[i]? = some (Call.createCollectionC db c sh rp)

/-! ### Helper lemmas -/

/-- A filler attribute name `a{i}` is never the `_key` field name. -/
theorem attr_name_ne_key (i : Nat) : ("a" ++ toString i) = "_key" → False := by
  intro h
  have h1 := congrArg String.data h
  rw [String.data_append] at h1
  have h2 : ("a".data : List Char) = ['a'] := rfl
  have h3 : ("_key".data : List Char) = ['_', 'k', 'e', 'y'] := rfl
  rw [h2, h3] at h1
  simp only [List.cons_append, List.nil_append] at h1
  injection h1 with h4 _
  exact absurd h4 (by decide)

/-- The modelled `Alphanumeric` sampler returns a string of the requested
length. -/
theorem generate_random_ascii_length (chars : Nat → Char) (n : Nat) :
    (generate_random_ascii chars n).length = n := by
  simp [generate_random_ascii, String.length]

/-- Filler lengths of the mapped attribute block. -/
theorem filler_lengths_attrs (chars : Nat → Char) (len : Nat) (l : List Nat) :
    filler_lengths (l.map
        (fun i => ("a" ++ toString i, JsonValue.str (generate_random_ascii chars len))))
      = List.replicate l.length len := by
  induction l with
  | nil => rfl
  | cons i rest ih =>
    simp only [List.map_cons, filler_lengths, List.filterMap_cons] at ih ⊢
    rw [if_neg (attr_name_ne_key i)]
    rw [generate_random_ascii_length, ih]
    simp [List.replicate]

/-! ### C1 -/

/-- Claim C1, counterexample: a transport-level failure is not degraded to
`false` by the existence checks; it surfaces as the typed
`ArangoError.RequestError`. -/
theorem existence_check_transport_error_cx :
    database_exists (Except.error ⟨"connection refused"⟩)
        = Except.error (ArangoError.RequestError ⟨"connection refused"⟩)
    ∧ database_exists (Except.error ⟨"connection refused"⟩) ≠ Except.ok false
    ∧ database_exists (Except.error ⟨"connection refused"⟩) ≠ Except.ok true
    ∧ collection_exists (Except.error ⟨"connection refused"⟩)
        = Except.error (ArangoError.RequestError ⟨"connection refused"⟩) := by
  refine ⟨rfl, ?_, ?_, rfl⟩ <;> simp [database_exists]

/-- Claim C1, amended: once an HTTP response is received, the existence checks
return `Ok(status.is_success())` — every non-success status degrades to the
boolean `false` and no typed error is reachable from a status problem; a
transport-level failure however propagates as the typed `RequestError`. -/
theorem existence_checks_degrade_status (r : HttpResponse) (e : ReqwestError) :
    database_exists (Except.ok r) = Except.ok r.status.is_success
    ∧ collection_exists (Except.ok r) = Except.ok r.status.is_success
    ∧ (r.status.is_success = false → database_exists (Except.ok r) = Except.ok false)
    ∧ (r.status.is_success = false → collection_exists (Except.ok r) = Except.ok false)
    ∧ database_exists (Except.error e) = Except.error (ArangoError.RequestError e)
    ∧ collection_exists (Except.error e) = Except.error (ArangoError.RequestError e) := by
  refine ⟨rfl, rfl, fun h => ?_, fun h => ?_, rfl, rfl⟩ <;>
    simp [database_exists, collection_exists, h]

/-- Witness for the amended C1 at a concrete 503 response. -/
theorem existence_checks_degrade_status_w :
    database_exists (Except.ok ⟨⟨503⟩, "service unavailable"⟩) = Except.ok false
    ∧ collection_exists (Except.ok ⟨⟨503⟩, "service unavailable"⟩) = Except.ok false :=
  ⟨(existence_checks_degrade_status ⟨⟨503⟩, "service unavailable"⟩ ⟨"x"⟩).2.2.1 (by decide),
   (existence_checks_degrade_status ⟨⟨503⟩, "service unavailable"⟩ ⟨"x"⟩).2.2.2.1 (by decide)⟩

/-! ### C2 -/

/-- Claim C2: with `attributeCount = 0` the synthesizer does not return a
document at all — the unconditional `u32` division
`remaining_size / num_attributes` divides by zero and the call panics
(modelled as `none`), for every index and target byte size; in particular at
index 1 with target size 1000. -/
theorem generate_document_zero_attributes_panics :
    (∀ (rng : RngState) (key target_size : Nat),
      generate_document rng key target_size 0 = none)
    ∧ generate_document ⟨0, false, fun _ => 'a'⟩ 1 1000 0 = none :=
  ⟨fun _ _ _ => rfl, rfl⟩

/-! ### C9 -/

/-- Claim C9: for every target byte size and every attribute count ≥ 1, each
filler string attribute of a synthesized document has length exactly
`(targetByteSize - 50) / attributeCount` (saturating subtraction, integer
division); in particular with target 1000 and 5 attributes every filler has
length `(1000 - 50) / 5 = 190`. -/
theorem generate_document_filler_lengths :
    (∀ (rng : RngState) (key target_size m : Nat),
      (generate_document rng key target_size (m + 1)).map filler_lengths
        = some (List.replicate (m + 1) ((target_size - 50) / (m + 1))))
    ∧ (∀ (rng : RngState) (key : Nat),
      (generate_document rng key 1000 5).map filler_lengths
        = some (List.replicate 5 190)) := by
  have main : ∀ (rng : RngState) (key target_size m : Nat),
      (generate_document rng key target_size (m + 1)).map filler_lengths
        = some (List.replicate (m + 1) ((target_size - 50) / (m + 1))) := by
    intro rng key target_size m
    rw [generate_document]
    rw [if_neg (Nat.succ_ne_zero m)]
    simp only [Option.map_some']
    rw [filler_lengths, List.filterMap_append]
    have hbase : List.filterMap (fun p : String × JsonValue =>
        match p.2 with
        | .str s => if p.1 = "_key" then none else some s.length
        | _ => none)
        [("_key", JsonValue.str ("K" ++ toString key)),
         ("number", JsonValue.num rng.num),
         ("bool", JsonValue.bool rng.boolVal)] = [] := by
      simp
    rw [hbase, List.nil_append]
    have := filler_lengths_attrs rng.chars ((target_size - 50) / (m + 1))
      (List.range' 1 (m + 1))
    rw [filler_lengths] at this
    rw [this, List.length_range']
  refine ⟨main, fun rng key => ?_⟩
  have h := main rng key 1000 4
  norm_num at h ⊢
  exact h

/-! ### C6 -/

/-- The first error of a result list is `none` exactly when every result is
`Ok(())`. -/
theorem first_error_eq_none_iff (l : List (Except String Unit)) :
    first_error l = none ↔ ∀ r ∈ l, r = Except.ok () := by
  induction l with
  | nil => simp [first_error]
  | cons r rest ih =>
    cases r with
    | ok u => cases u; simpa [first_error] using ih
    | error e => simp [first_error]

/-- Collecting a result list fails with `e` exactly when `e` is the first
error in result order. -/
theorem collect_results_error_iff (l : List (Except String Unit)) (e : String) :
    collect_results l = Except.error e ↔ first_error l = some e := by
  induction l with
  | nil => simp [collect_results, first_error]
  | cons r rest ih =>
    cases r with
    | ok u =>
      rw [collect_results, first_error]
      cases h : collect_results rest with
      | ok v => simp [Except.map, h, ← ih]
      | error e2 => simpa [Except.map, h] using ih
    | error e2 => simp [collect_results, first_error]

/-- The overall result of `insert_documents` fails with `e` exactly when the
collection step does. -/
theorem insert_documents_error_iff
    (env : Nat × Nat → Except ReqwestError HttpResponse) (n : Nat) (e : String) :
    insert_documents env n = Except.error e ↔
      collect_results (insert_results env n) = Except.error e := by
  rw [insert_documents]
  cases h : collect_results (insert_results env n) with
  | ok v => simp
  | error e2 => simp

/-- The overall result of `insert_documents` is `Ok(())` exactly when no batch
produced an error. -/
theorem insert_documents_ok_iff
    (env : Nat × Nat → Except ReqwestError HttpResponse) (n : Nat) :
    insert_documents env n = Except.ok () ↔ first_error (insert_results env n) = none := by
  rw [insert_documents]
  cases h : collect_results (insert_results env n) with
  | ok v =>
    simp only [true_iff]
    cases hf : first_error (insert_results env n) with
    | none => simp
    | some e =>
      rw [← collect_results_error_iff] at hf
      rw [h] at hf
      exact absurd hf (by simp)
  | error e2 =>
    have hfe : first_error (insert_results env n) = some e2 :=
      (collect_results_error_iff _ _).mp h
    rw [hfe]
    simp

/-- Claim C6: `insert_documents` drains every batch — its result vector is the
map of the per-batch outcome over all batch ranges, no batch being skipped or
cancelled — then reports success exactly when every batch succeeded, and
failure with `e` exactly when `e` is the first failure in result order. -/
theorem insert_documents_drain_then_report
    (env : Nat × Nat → Except ReqwestError HttpResponse) (num_documents : Nat) :
    insert_results env num_documents
        = (batch_ranges num_documents).map (fun b => insert_batch_result (env b))
    ∧ (insert_documents env num_documents = Except.ok () ↔
        ∀ b ∈ batch_ranges num_documents, insert_batch_result (env b) = Except.ok ())
    ∧ (∀ e, insert_documents env num_documents = Except.error e ↔
        first_error (insert_results env num_documents) = some e) := by
  refine ⟨rfl, ?_, fun e => ?_⟩
  · rw [insert_documents_ok_iff, first_error_eq_none_iff, insert_results]
    constructor
    · intro hall b hb
      exact hall (insert_batch_result (env b)) (List.mem_map_of_mem _ hb)
    · intro hall r hr
      obtain ⟨b, hb, rfl⟩ := List.mem_map.mp hr
      exact hall b hb
  · rw [insert_documents_error_iff, collect_results_error_iff]

/-! ### C7 -/

/-- The indices divisible by 1000 below `n`, in order. -/
theorem filter_mod_range (n : Nat) :
    (List.range n).filter (fun i => i % 1000 == 0)
      = (List.range ((n + 999) / 1000)).map (fun j => 1000 * j) := by
  induction n with
  | zero => rfl
  | succ n ih =>
    rw [List.range_succ, List.filter_append, ih]
    by_cases h : n % 1000 = 0
    · have h1 : (n + 1 + 999) / 1000 = (n + 999) / 1000 + 1 := by omega
      have h3 : 1000 * ((n + 999) / 1000) = n := by omega
      rw [h1, List.range_succ, List.map_append]
      have h2 : ((fun i => i % 1000 == 0) n) = true := by simpa using h
      simp only [List.filter_cons, h2, if_true, List.filter_nil, List.map_cons,
        List.map_nil, h3]
    · have h1 : (n + 1 + 999) / 1000 = (n + 999) / 1000 := by omega
      have h2 : ((fun i => i % 1000 == 0) n) = false := by simpa using h
      rw [h1]
      simp only [List.filter_cons, h2, List.filter_nil, List.append_nil]
      simp

/-- Closed form of `step_by 1000` on the sequence range `[1, n]`. -/
theorem step_by_range' (n : Nat) :
    step_by 1000 (List.range' 1 n)
      = (List.range ((n + 999) / 1000)).map (fun k => 1 + 1000 * k) := by
  rw [step_by, List.range'_eq_map_range]
  rw [List.enum_eq_zip_range]
  rw [List.length_map, List.length_range]
  have hz : (List.range n).zip ((List.range n).map (fun a => 1 + a))
      = (List.range n).map (fun a => (a, 1 + a)) := by
    have h := List.zip_map' (id : Nat → Nat) (fun a => 1 + a) (List.range n)
    simpa using h
  have hada : ((List.range n).map fun i => 1 + i) = ((List.range n).map fun i => 1 + i) := rfl
  rw [show ((List.range n).map (1 + ·)) = ((List.range n).map fun a => 1 + a) from rfl, hz]
  rw [List.filter_map, List.map_map]
  have hp : ((fun p : Nat × Nat => p.1 % 1000 == 0) ∘ fun a => (a, 1 + a))
      = fun i => i % 1000 == 0 := rfl
  rw [hp, filter_mod_range, List.map_map]
  rfl

/-- Closed form of the batch ranges: the k-th batch starts at `1 + 1000 k`
and ends at the `u32`-wrapped end expression capped at `n`. -/
theorem batch_ranges_closed (n : Nat) :
    batch_ranges n = (List.range ((n + 999) / 1000)).map
      (fun k => (1 + 1000 * k,
        min (wrap32 (wrap32 (1 + 1000 * k + 1000) + 4294967295)) n)) := by
  rw [batch_ranges, step_by_range', List.map_map]
  rfl

/-- Below the overflow threshold `n = 4294967000`, every batch-end
computation stays within `u32` and the wrapped end expression is the exact
`start + 999`. -/
theorem batch_ranges_no_overflow (n : Nat) (hn : n ≤ 4294967000) :
    batch_ranges n = (List.range ((n + 999) / 1000)).map
      (fun k => (1 + 1000 * k, min (1000 * k + 1000) n)) := by
  rw [batch_ranges_closed]
  apply List.map_congr_left
  intro k hk
  rw [List.mem_range] at hk
  have hw : wrap32 (wrap32 (1 + 1000 * k + 1000) + 4294967295) = 1000 * k + 1000 := by
    simp only [wrap32]
    omega
  rw [hw]

/-- Claim C7, amended: for every `documentCount` up to the overflow threshold
4294967000 — beyond it the final batch's `u32` expression
`start + BATCH_SIZE - 1` overflows, so the claimed end is not produced — the
scheduler partitions `[1, documentCount]` into consecutive batches of at most
1000 documents: every batch is `(start, min (start + 999) documentCount)`
with `1 ≤ start ≤ documentCount`, each batch starts where the previous one
ended plus one, every non-final batch holds exactly 1000 documents, the first
batch (when any) starts at 1, the last one ends at `documentCount`; and
`documentCount = 2500` yields exactly the batches
`[(1, 1000), (1001, 2000), (2001, 2500)]`. -/
theorem insert_batch_partitioning (n : Nat) (hn : n ≤ 4294967000) :
    (∀ p ∈ batch_ranges n, p.2 = min (p.1 + 999) n ∧ 1 ≤ p.1 ∧ p.1 ≤ n)
    ∧ (∀ (i : Nat) (h : i + 1 < (batch_ranges n).length),
        ((batch_ranges n).get ⟨i + 1, h⟩).1
          = ((batch_ranges n).get ⟨i, Nat.lt_of_succ_lt h⟩).2 + 1)
    ∧ (∀ (i : Nat) (h : i + 1 < (batch_ranges n).length),
        ((batch_ranges n).get ⟨i, Nat.lt_of_succ_lt h⟩).2 + 1
          - ((batch_ranges n).get ⟨i, Nat.lt_of_succ_lt h⟩).1 = 1000)
    ∧ ((batch_ranges n).head? = if n = 0 then none else some (1, min 1000 n))
    ∧ ((batch_ranges n).getLast?.map Prod.snd = if n = 0 then none else some n)
    ∧ batch_ranges 2500 = [(1, 1000), (1001, 2000), (2001, 2500)] := by
  have hno := batch_ranges_no_overflow n hn
  have hlen : (batch_ranges n).length = (n + 999) / 1000 := by
    rw [hno, List.length_map, List.length_range]
  have hget : ∀ (i : Nat) (h : i < (batch_ranges n).length),
      (batch_ranges n).get ⟨i, h⟩ = (1 + 1000 * i, min (1000 * i + 1000) n) := by
    intro i h
    have h2 : i < ((List.range ((n + 999) / 1000)).map
        (fun k => (1 + 1000 * k, min (1000 * k + 1000) n))).length := by
      rw [← hno]; exact h
    rw [List.get_eq_getElem]
    have h3 : (batch_ranges n)[i]? = some (1 + 1000 * i, min (1000 * i + 1000) n) := by
      rw [hno]
      rw [List.getElem?_eq_getElem h2, List.getElem_map, List.getElem_range]
    have h4 := List.getElem?_eq_getElem h
    exact Option.some.inj (h4.symm.trans h3)
  refine ⟨?_, ?_, ?_, ?_, ?_, ?_⟩
  · intro p hp
    rw [hno] at hp
    obtain ⟨k, hk, rfl⟩ := List.mem_map.mp hp
    rw [List.mem_range] at hk
    refine ⟨by omega, by omega, by omega⟩
  · intro i h
    rw [hget (i + 1) h, hget i (Nat.lt_of_succ_lt h)]
    rw [hlen] at h
    omega
  · intro i h
    rw [hget i (Nat.lt_of_succ_lt h)]
    rw [hlen] at h
    omega
  · by_cases hn : n = 0
    · subst hn
      rfl
    · rw [if_neg hn]
      have hpos : 0 < (batch_ranges n).length := by
        rw [hlen]; omega
      rw [List.head?_eq_getElem?, List.getElem?_eq_getElem hpos]
      have := hget 0 hpos
      rw [List.get_eq_getElem] at this
      rw [this]
  · by_cases hn : n = 0
    · subst hn
      rfl
    · rw [if_neg hn]
      have hpos : 0 < (batch_ranges n).length := by
        rw [hlen]; omega
      rw [List.getLast?_eq_getElem?, List.getElem?_eq_getElem (by omega)]
      have hlast := hget ((batch_ranges n).length - 1) (by omega)
      rw [List.get_eq_getElem] at hlast
      rw [hlast]
      simp only [Option.map_some']
      have hb : (batch_ranges n).length = (n + 999) / 1000 := hlen
      congr 1
      omega
  · rw [batch_ranges_closed]
    decide

/-- Claim C7, counterexample: at `documentCount = 4294967001` (a valid `u32`)
the final batch starts at 4294967001 and its `u32` end expression
`start + 1000 - 1` wraps to 704, so the produced batch is
`(4294967001, 704)` — not `[start, min(start + 999, documentCount)]`, and the
last batch does not end at `documentCount`. -/
theorem insert_batch_overflow_cx :
    (batch_ranges 4294967001).getLast? = some (4294967001, 704)
    ∧ (704 : Nat) ≠ min (4294967001 + 999) 4294967001
    ∧ (batch_ranges 4294967001).getLast?.map Prod.snd ≠ some 4294967001 := by
  have hB : (4294967001 + 999) / 1000 = 4294968 := by norm_num
  have hlast : (batch_ranges 4294967001).getLast? = some (4294967001, 704) := by
    rw [List.getLast?_eq_getElem?, batch_ranges_closed, hB,
      List.length_map, List.length_range]
    rw [List.getElem?_map, List.getElem?_range (by norm_num)]
    simp only [Option.map_some']
    rw [show (4294968 : Nat) - 1 = 4294967 from rfl]
    congr 1
  refine ⟨hlast, by norm_num, ?_⟩
  rw [hlast]
  simp

/-- Witness for the amended C7 at the concrete document count 2500,
discharging the overflow bound. -/
theorem insert_batch_partitioning_w :
    2500 ≤ 4294967000
    ∧ batch_ranges 2500 = [(1, 1000), (1001, 2000), (2001, 2500)] :=
  ⟨by norm_num, (insert_batch_partitioning 2500 (by norm_num)).2.2.2.2.2⟩

/-! ### Reconciler lemmas -/

/-- When every visited collection exists, the existence loop visits all of
them and reports `true`. -/
theorem check_collections_all (state : ClusterState) (db_name : String) (l : List Nat)
    (h : ∀ i ∈ l, state.existing_colls.contains (coll_name i) = true) :
    check_collections state db_name l
      = (true, l.map (fun i => Call.collectionExistsC db_name (coll_name i))) := by
  induction l with
  | nil => rfl
  | cons i rest ih =>
    have hi := h i (by simp)
    rw [check_collections, if_pos hi, ih (fun j hj => h j (by simp [hj]))]
    rfl

/-- The existence loop stops at the first missing collection: it checks the
existing block and the first missing index, reports `false`, and enumerates
nothing further. -/
theorem check_collections_break (state : ClusterState) (db_name : String)
    (l1 : List Nat) (j : Nat) (l2 : List Nat)
    (h1 : ∀ i ∈ l1, state.existing_colls.contains (coll_name i) = true)
    (hj : state.existing_colls.contains (coll_name j) = false) :
    check_collections state db_name (l1 ++ j :: l2)
      = (false, (l1 ++ [j]).map (fun i => Call.collectionExistsC db_name (coll_name i))) := by
  induction l1 with
  | nil =>
    simp only [List.nil_append, List.map_cons, List.map_nil]
    rw [check_collections, if_neg (by rw [hj]; exact Bool.false_ne_true)]
  | cons i rest ih =>
    have hi := h1 i (by simp)
    simp only [List.cons_append]
    rw [check_collections, if_pos hi, ih (fun a ha => h1 a (by simp [ha]))]
    rfl

/-- Length and element characterization of the create-and-populate loop trace
over an arbitrary index block: the call at offset `2k` creates collection
`s + k` and the call at offset `2k + 1` populates it. -/
theorem create_populate_block_getElem (db_name : String) (cfg : CrudConfig)
    (s n : Nat) :
    ((List.range' s n).flatMap (fun i =>
        [Call.createCollectionC db_name (coll_name i)
           cfg.number_of_shards cfg.replication_factor,
         Call.insertDocumentsC db_name (coll_name i) cfg.number_of_documents])).length
      = 2 * n
    ∧ ∀ k, k < n →
        ((List.range' s n).flatMap (fun i =>
          [Call.createCollectionC db_name (coll_name i)
             cfg.number_of_shards cfg.replication_factor,
           Call.insertDocumentsC db_name (coll_name i) cfg.number_of_documents]))[2 * k]?
          = some (Call.createCollectionC db_name (coll_name (s + k))
              cfg.number_of_shards cfg.replication_factor)
        ∧ ((List.range' s n).flatMap (fun i =>
          [Call.createCollectionC db_name (coll_name i)
             cfg.number_of_shards cfg.replication_factor,
           Call.insertDocumentsC db_name (coll_name i) cfg.number_of_documents]))[2 * k + 1]?
          = some (Call.insertDocumentsC db_name (coll_name (s + k))
              cfg.number_of_documents) := by
  induction n generalizing s with
  | zero => exact ⟨rfl, fun k hk => absurd hk (by omega)⟩
  | succ n ih =>
    rw [List.range'_succ]
    simp only [List.flatMap_cons]
    obtain ⟨ihlen, ihget⟩ := ih (s + 1)
    constructor
    · simp only [List.cons_append, List.nil_append, List.length_cons]
      rw [ihlen]
      omega
    · intro k hk
      match k with
      | 0 =>
        simp [Nat.add_zero]
      | k + 1 =>
        have hk' : k < n := by omega
        obtain ⟨hc, hi⟩ := ihget k hk'
        have e1 : 2 * (k + 1) = (2 * k + 1) + 1 := by omega
        have e2 : 2 * (k + 1) + 1 = (2 * k + 2) + 1 := by omega
        constructor
        · rw [e1]
          simp only [List.cons_append, List.nil_append, List.getElem?_cons_succ]
          rw [show s + (k + 1) = s + 1 + k by omega]
          exact hc
        · rw [e2]
          simp only [List.cons_append, List.nil_append, List.getElem?_cons_succ]
          rw [show s + (k + 1) = s + 1 + k by omega]
          exact hi

/-- In the create-and-populate block, every insertion call is preceded by the
create call of the same collection. -/
theorem create_populate_block_eipc (db_name : String) (cfg : CrudConfig) (s n : Nat) :
    each_insert_preceded_by_create ((List.range' s n).flatMap (fun i =>
      [Call.createCollectionC db_name (coll_name i)
         cfg.number_of_shards cfg.replication_factor,
       Call.insertDocumentsC db_name (coll_name i) cfg.number_of_documents])) := by
  induction n generalizing s with
  | zero =>
    intro j db c m hj
    simp at hj
  | succ n ih =>
    rw [List.range'_succ, List.flatMap_cons]
    intro j db c m hj
    match j with
    | 0 =>
      simp only [List.cons_append, List.nil_append, List.getElem?_cons_zero,
        Option.some.injEq] at hj
      exact absurd hj (by simp)
    | 1 =>
      simp only [List.cons_append, List.nil_append, List.getElem?_cons_succ,
        List.getElem?_cons_zero, Option.some.injEq] at hj
      refine ⟨0, cfg.number_of_shards, cfg.replication_factor, by omega, ?_⟩
      simp only [List.cons_append, List.nil_append, List.getElem?_cons_zero,
        Option.some.injEq]
      cases hj
      rfl
    | j + 2 =>
      simp only [List.cons_append, List.nil_append, List.getElem?_cons_succ] at hj
      obtain ⟨i, sh, rp, hlt, hi⟩ := ih (s + 1) j db c m hj
      refine ⟨i + 2, sh, rp, by omega, ?_⟩
      simp only [List.cons_append, List.nil_append, List.getElem?_cons_succ]
      exact hi

/-- Prepending a non-insertion call preserves the per-collection precedence
property. -/
theorem eipc_cons_of_not_insert (a : Call) (ha : a.is_insert_documents = false)
    (t : List Call) (ht : each_insert_preceded_by_create t) :
    each_insert_preceded_by_create (a :: t) := by
  intro j db c m hj
  match j with
  | 0 =>
    simp only [List.getElem?_cons_zero, Option.some.injEq] at hj
    rw [hj] at ha
    simp [Call.is_insert_documents] at ha
  | j + 1 =>
    rw [List.getElem?_cons_succ] at hj
    obtain ⟨i, sh, rp, hlt, hi⟩ := ht j db c m hj
    exact ⟨i + 1, sh, rp, by omega, by rw [List.getElem?_cons_succ]; exact hi⟩

/-- The create-collection calls of the create-and-populate block, in order. -/
theorem create_populate_block_filter (db_name : String) (cfg : CrudConfig) (l : List Nat) :
    (l.flatMap (fun i =>
        [Call.createCollectionC db_name (coll_name i)
           cfg.number_of_shards cfg.replication_factor,
         Call.insertDocumentsC db_name (coll_name i) cfg.number_of_documents])).filter
        Call.is_create_collection
      = l.map (fun i => Call.createCollectionC db_name (coll_name i)
          cfg.number_of_shards cfg.replication_factor) := by
  induction l with
  | nil => rfl
  | cons i rest ih =>
    rw [List.flatMap_cons, List.filter_append, ih]
    rfl

/-- Existence-check calls contain no create-collection call. -/
theorem filter_create_map_collE (db : String) (l : List Nat) :
    (l.map (fun i => Call.collectionExistsC db (coll_name i))).filter
      Call.is_create_collection = [] := by
  induction l with
  | nil => rfl
  | cons i rest ih => simp [List.filter_cons, Call.is_create_collection, ih]

/-- Splitting the collection index range at the first missing index. -/
theorem range'_split_at (k n : Nat) (hk : k < n) :
    List.range' 1 n = List.range' 1 k ++ (k + 1) :: List.range' (k + 2) (n - k - 1) := by
  obtain ⟨m, hm⟩ : ∃ m, n - k = m + 1 := ⟨n - k - 1, by omega⟩
  rw [show n - k - 1 = m by omega]
  have h1 := List.range'_append_1 1 k (m + 1)
  rw [show 1 + k = k + 1 by omega] at h1
  rw [List.range'_succ] at h1
  rw [show k + 1 + 1 = k + 2 by omega] at h1
  rw [show m + 1 + k = n by omega] at h1
  exact h1.symm

/-! ### C3 -/

/-- Claim C3, counterexample: with the database absent and two configured
collections, the pass does not create all collections before inserting —
the insertion into `c1` precedes the creation of `c2`, so not every
collection-create call precedes every document-insert call. -/
theorem reconcile_fresh_not_phase_separated_cx :
    ¬ creates_precede_inserts
      (initialize_database_and_collections ⟨false, []⟩ ⟨["http://h1"], "root", "", "t_"⟩
        ⟨2, 1, 1, 10, 100, false, 2⟩).2 := by
  decide

/-- Claim C3, amended: when the database is absent, the pass checks existence,
creates the database, and then handles the collections in index order 1..N,
creating collection `c(k+1)` at trace position `2 + 2k` and immediately
populating it at position `3 + 2k` before the next collection is created;
creation and population are interleaved per collection (each collection's
create call precedes the insertions into it), not phase-separated. -/
theorem reconcile_fresh_interleaves_create_insert (state : ClusterState)
    (db_config : DatabaseConfig) (crud_config : CrudConfig)
    (hdb : state.db_exists = false) :
    initialize_database_and_collections state db_config crud_config
      = (false, Call.databaseExistsC (db_config.prefixStr ++ "crud")
          :: Call.createDatabaseC (db_config.prefixStr ++ "crud")
          :: create_and_populate (db_config.prefixStr ++ "crud") crud_config)
    ∧ (initialize_database_and_collections state db_config crud_config).2.length
        = 2 + 2 * crud_config.number_of_collections
    ∧ (∀ k, k < crud_config.number_of_collections →
        (initialize_database_and_collections state db_config crud_config).2[2 + 2 * k]?
          = some (Call.createCollectionC (db_config.prefixStr ++ "crud")
              (coll_name (1 + k)) crud_config.number_of_shards
              crud_config.replication_factor)
        ∧ (initialize_database_and_collections state db_config crud_config).2[2 + 2 * k + 1]?
          = some (Call.insertDocumentsC (db_config.prefixStr ++ "crud")
              (coll_name (1 + k)) crud_config.number_of_documents))
    ∧ each_insert_preceded_by_create
        (initialize_database_and_collections state db_config crud_config).2 := by
  have htr : initialize_database_and_collections state db_config crud_config
      = (false, Call.databaseExistsC (db_config.prefixStr ++ "crud")
          :: Call.createDatabaseC (db_config.prefixStr ++ "crud")
          :: create_and_populate (db_config.prefixStr ++ "crud") crud_config) := by
    simp [initialize_database_and_collections, hdb]
  obtain ⟨hlen, hget⟩ := create_populate_block_getElem
    (db_config.prefixStr ++ "crud") crud_config 1 crud_config.number_of_collections
  refine ⟨htr, ?_, ?_, ?_⟩
  · rw [htr]
    simp only [List.length_cons]
    rw [create_and_populate, hlen]
    omega
  · intro k hk
    obtain ⟨hc, hi⟩ := hget k hk
    rw [htr]
    constructor
    · rw [show 2 + 2 * k = (2 * k + 1) + 1 by omega]
      simp only [List.getElem?_cons_succ]
      rw [create_and_populate]
      exact hc
    · rw [show 2 + 2 * k + 1 = ((2 * k + 1) + 1) + 1 by omega]
      simp only [List.getElem?_cons_succ]
      rw [create_and_populate]
      exact hi
  · rw [htr]
    apply eipc_cons_of_not_insert
      (Call.databaseExistsC (db_config.prefixStr ++ "crud")) rfl
    apply eipc_cons_of_not_insert
      (Call.createDatabaseC (db_config.prefixStr ++ "crud")) rfl
    rw [create_and_populate]
    exact create_populate_block_eipc (db_config.prefixStr ++ "crud") crud_config 1
      crud_config.number_of_collections

/-- Witness for the amended C3: the full trace at a fresh cluster with two
collections, exposing the interleaved create/insert order. -/
theorem reconcile_fresh_interleaves_create_insert_w :
    initialize_database_and_collections ⟨false, []⟩ ⟨["http://h1"], "root", "", "t_"⟩
        ⟨2, 1, 1, 10, 100, false, 2⟩
      = (false, [Call.databaseExistsC "t_crud", Call.createDatabaseC "t_crud",
          Call.createCollectionC "t_crud" "c1" 1 1, Call.insertDocumentsC "t_crud" "c1" 10,
          Call.createCollectionC "t_crud" "c2" 1 1,
          Call.insertDocumentsC "t_crud" "c2" 10]) := by
  have h := (reconcile_fresh_interleaves_create_insert ⟨false, []⟩
    ⟨["http://h1"], "root", "", "t_"⟩ ⟨2, 1, 1, 10, 100, false, 2⟩ rfl).1
  rw [h]
  decide

/-! ### C4 -/

/-- Claim C4: when the database exists, `dropFirst` is false and all N
collections exist, the pass only performs the existence checks — the result
is `true` (pre-existing), the trace is exactly the database check followed by
the N collection checks, and it contains zero create-database,
create-collection, drop-database or document-insertion calls. -/
theorem reconcile_reuse_no_mutations (state : ClusterState)
    (db_config : DatabaseConfig) (crud_config : CrudConfig)
    (hdb : state.db_exists = true)
    (hdrop : crud_config.drop_first = false)
    (hcolls : ∀ i ∈ List.range' 1 crud_config.number_of_collections,
      state.existing_colls.contains (coll_name i) = true) :
    (initialize_database_and_collections state db_config crud_config).1 = true
    ∧ (initialize_database_and_collections state db_config crud_config).2
        = Call.databaseExistsC (db_config.prefixStr ++ "crud")
          :: (List.range' 1 crud_config.number_of_collections).map
              (fun i => Call.collectionExistsC (db_config.prefixStr ++ "crud") (coll_name i))
    ∧ (initialize_database_and_collections state db_config crud_config).2.countP
        Call.is_mutation = 0 := by
  have hc := check_collections_all state (db_config.prefixStr ++ "crud") _ hcolls
  have htr : initialize_database_and_collections state db_config crud_config
      = (true, Call.databaseExistsC (db_config.prefixStr ++ "crud")
          :: (List.range' 1 crud_config.number_of_collections).map
              (fun i => Call.collectionExistsC (db_config.prefixStr ++ "crud")
                (coll_name i))) := by
    simp [initialize_database_and_collections, hdb, hdrop, hc]
  refine ⟨by rw [htr], by rw [htr], ?_⟩
  rw [htr]
  rw [List.countP_eq_zero]
  intro a ha
  rcases List.mem_cons.mp ha with rfl | hm
  · simp [Call.is_mutation]
  · obtain ⟨i, _, rfl⟩ := List.mem_map.mp hm
    simp [Call.is_mutation]

/-- Witness for C4: a database with both configured collections present is
reused without any mutating call. -/
theorem reconcile_reuse_no_mutations_w :
    (initialize_database_and_collections ⟨true, ["c1", "c2"]⟩
        ⟨["http://h1"], "root", "", "t_"⟩ ⟨2, 1, 1, 10, 100, false, 2⟩).1 = true
    ∧ (initialize_database_and_collections ⟨true, ["c1", "c2"]⟩
        ⟨["http://h1"], "root", "", "t_"⟩ ⟨2, 1, 1, 10, 100, false, 2⟩).2.countP
        Call.is_mutation = 0 := by
  have h := reconcile_reuse_no_mutations ⟨true, ["c1", "c2"]⟩
    ⟨["http://h1"], "root", "", "t_"⟩ ⟨2, 1, 1, 10, 100, false, 2⟩ rfl rfl (by decide)
  exact ⟨h.1, h.2.2⟩

/-! ### C5 -/

/-- Claim C5: when the database exists, `dropFirst` is false, collections
`c1..ck` exist and `c(k+1)` is missing (k < N), the pass stops enumerating at
the first missing collection (it checks exactly `c1..c(k+1)`), then drops the
whole database, recreates it and creates all N collections (interleaved with
their population); the create-collection calls of the trace are exactly
`c1..cN` in order — the pass never creates only the missing collections in
the existing database. -/
theorem reconcile_partial_topology_repair (state : ClusterState)
    (db_config : DatabaseConfig) (crud_config : CrudConfig) (k : Nat)
    (hdb : state.db_exists = true)
    (hdrop : crud_config.drop_first = false)
    (hk : k < crud_config.number_of_collections)
    (hex : ∀ i ∈ List.range' 1 k, state.existing_colls.contains (coll_name i) = true)
    (hmiss : state.existing_colls.contains (coll_name (k + 1)) = false) :
    initialize_database_and_collections state db_config crud_config
      = (false, Call.databaseExistsC (db_config.prefixStr ++ "crud")
          :: ((List.range' 1 (k + 1)).map
              (fun i => Call.collectionExistsC (db_config.prefixStr ++ "crud") (coll_name i))
            ++ Call.dropDatabaseC (db_config.prefixStr ++ "crud")
              :: Call.createDatabaseC (db_config.prefixStr ++ "crud")
              :: create_and_populate (db_config.prefixStr ++ "crud") crud_config))
    ∧ (initialize_database_and_collections state db_config crud_config).2.filter
          Call.is_create_collection
        = (List.range' 1 crud_config.number_of_collections).map
            (fun i => Call.createCollectionC (db_config.prefixStr ++ "crud") (coll_name i)
              crud_config.number_of_shards crud_config.replication_factor) := by
  have hsplit := range'_split_at k crud_config.number_of_collections hk
  have hbreak := check_collections_break state (db_config.prefixStr ++ "crud")
    (List.range' 1 k) (k + 1)
    (List.range' (k + 2) (crud_config.number_of_collections - k - 1)) hex hmiss
  have hconcat : List.range' 1 k ++ [k + 1] = List.range' 1 (k + 1) := by
    have := List.range'_append_1 1 k 1
    rw [show 1 + k = k + 1 by omega] at this
    simpa using this
  have htr : initialize_database_and_collections state db_config crud_config
      = (false, Call.databaseExistsC (db_config.prefixStr ++ "crud")
          :: ((List.range' 1 (k + 1)).map
              (fun i => Call.collectionExistsC (db_config.prefixStr ++ "crud") (coll_name i))
            ++ Call.dropDatabaseC (db_config.prefixStr ++ "crud")
              :: Call.createDatabaseC (db_config.prefixStr ++ "crud")
              :: create_and_populate (db_config.prefixStr ++ "crud") crud_config)) := by
    rw [initialize_database_and_collections]
    rw [hdb, hdrop]
    rw [hsplit, hbreak, hconcat]
    simp
  refine ⟨htr, ?_⟩
  rw [htr]
  simp only [List.filter_cons, List.filter_append]
  rw [filter_create_map_collE]
  rw [create_and_populate, create_populate_block_filter]
  simp [Call.is_create_collection]

/-- Witness for C5: database present with only `c1` of three collections;
the pass checks `c1`, `c2`, stops, drops, recreates everything. -/
theorem reconcile_partial_topology_repair_w :
    initialize_database_and_collections ⟨true, ["c1"]⟩ ⟨["http://h1"], "root", "", "t_"⟩
        ⟨3, 1, 1, 10, 100, false, 2⟩
      = (false, Call.databaseExistsC "t_crud"
          :: ((List.range' 1 2).map (fun i => Call.collectionExistsC "t_crud" (coll_name i))
            ++ Call.dropDatabaseC "t_crud" :: Call.createDatabaseC "t_crud"
              :: create_and_populate "t_crud" ⟨3, 1, 1, 10, 100, false, 2⟩)) :=
  (reconcile_partial_topology_repair ⟨true, ["c1"]⟩ ⟨["http://h1"], "root", "", "t_"⟩
    ⟨3, 1, 1, 10, 100, false, 2⟩ 1 rfl rfl (by decide) (by decide) (by decide)).1

/-! ### C8 -/

/-- Claim C8: reconciliation against a fresh cluster (database absent) issues
exactly N create-collection calls, with the deterministic names `c1..cN` in
that order, and every document insertion into a collection is preceded in the
trace by that collection's create call; for N = 0 no collection is created. -/
theorem reconcile_fresh_collection_creation (state : ClusterState)
    (db_config : DatabaseConfig) (crud_config : CrudConfig)
    (hdb : state.db_exists = false) :
    (initialize_database_and_collections state db_config crud_config).2.filter
        Call.is_create_collection
      = (List.range' 1 crud_config.number_of_collections).map
          (fun i => Call.createCollectionC (db_config.prefixStr ++ "crud") (coll_name i)
            crud_config.number_of_shards crud_config.replication_factor)
    ∧ ((initialize_database_and_collections state db_config crud_config).2.filter
        Call.is_create_collection).length = crud_config.number_of_collections
    ∧ each_insert_preceded_by_create
        (initialize_database_and_collections state db_config crud_config).2
    ∧ (crud_config.number_of_collections = 0 →
        (initialize_database_and_collections state db_config crud_config).2.filter
          Call.is_create_collection = []) := by
  have htr : initialize_database_and_collections state db_config crud_config
      = (false, Call.databaseExistsC (db_config.prefixStr ++ "crud")
          :: Call.createDatabaseC (db_config.prefixStr ++ "crud")
          :: create_and_populate (db_config.prefixStr ++ "crud") crud_config) := by
    simp [initialize_database_and_collections, hdb]
  have hfil : (initialize_database_and_collections state db_config crud_config).2.filter
      Call.is_create_collection
      = (List.range' 1 crud_config.number_of_collections).map
          (fun i => Call.createCollectionC (db_config.prefixStr ++ "crud") (coll_name i)
            crud_config.number_of_shards crud_config.replication_factor) := by
    rw [htr]
    simp only [List.filter_cons]
    rw [create_and_populate, create_populate_block_filter]
    simp [Call.is_create_collection]
  refine ⟨hfil, ?_, ?_, ?_⟩
  · rw [hfil, List.length_map, List.length_range']
  · rw [htr]
    apply eipc_cons_of_not_insert
      (Call.databaseExistsC (db_config.prefixStr ++ "crud")) rfl
    apply eipc_cons_of_not_insert
      (Call.createDatabaseC (db_config.prefixStr ++ "crud")) rfl
    rw [create_and_populate]
    exact create_populate_block_eipc (db_config.prefixStr ++ "crud") crud_config 1
      crud_config.number_of_collections
  · intro h0
    rw [hfil, h0]
    rfl

/-- Witness for C8: a fresh cluster with three configured collections gets
exactly the creates `c1`, `c2`, `c3` in order. -/
theorem reconcile_fresh_collection_creation_w :
    (initialize_database_and_collections ⟨false, []⟩ ⟨["http://h1"], "root", "", "t_"⟩
        ⟨3, 1, 1, 10, 100, false, 2⟩).2.filter Call.is_create_collection
      = [Call.createCollectionC "t_crud" "c1" 1 1, Call.createCollectionC "t_crud" "c2" 1 1,
         Call.createCollectionC "t_crud" "c3" 1 1] := by
  have h := (reconcile_fresh_collection_creation ⟨false, []⟩
    ⟨["http://h1"], "root", "", "t_"⟩ ⟨3, 1, 1, 10, 100, false, 2⟩ rfl).1
  rw [h]
  decide

/-! ### C10 -/

/-- Claim C10: every topology operation (create/drop database, database and
collection existence, create collection) addresses only the first configured
entry point: under a non-empty entry-point list the index-0 access is valid
(each URL is defined), and the URLs are fully determined by entry 0 — two
configurations agreeing on their first entry point produce identical topology
URLs. Only the batch document inserts build one URL per entry point, the
`i`-th insert URL addressing entry point `i`. -/
theorem topology_ops_use_first_endpoint (config config2 : DatabaseConfig)
    (db c : String)
    (h : config.endpoints ≠ [])
    (h0 : config.endpoints[0]? = config2.endpoints[0]?) :
    (create_database_url config).isSome = true
    ∧ (drop_database_url config db).isSome = true
    ∧ (database_exists_url config db).isSome = true
    ∧ (collection_exists_url config db c).isSome = true
    ∧ (create_collection_url config db).isSome = true
    ∧ create_database_url config = create_database_url config2
    ∧ drop_database_url config db = drop_database_url config2 db
    ∧ database_exists_url config db = database_exists_url config2 db
    ∧ collection_exists_url config db c = collection_exists_url config2 db c
    ∧ create_collection_url config db = create_collection_url config2 db
    ∧ (insert_document_urls config db c).length = config.endpoints.length
    ∧ (∀ i, i < config.endpoints.length →
        (insert_document_urls config db c)[i]?
          = (config.endpoints[i]?).map
              (fun ep => ep ++ "/_db/" ++ db ++ "/_api/document/" ++ c)) := by
  have hsome : (config.endpoints[0]?).isSome = true := by
    have hpos : 0 < config.endpoints.length := List.length_pos.mpr h
    rw [List.getElem?_eq_getElem hpos]
    rfl
  refine ⟨?_, ?_, ?_, ?_, ?_, ?_, ?_, ?_, ?_, ?_, ?_, ?_⟩
  · rw [create_database_url, Option.isSome_map']; exact hsome
  · rw [drop_database_url, Option.isSome_map']; exact hsome
  · rw [database_exists_url, Option.isSome_map']; exact hsome
  · rw [collection_exists_url, Option.isSome_map']; exact hsome
  · rw [create_collection_url, Option.isSome_map']; exact hsome
  · rw [create_database_url, create_database_url, h0]
  · rw [drop_database_url, drop_database_url, h0]
  · rw [database_exists_url, database_exists_url, h0]
  · rw [collection_exists_url, collection_exists_url, h0]
  · rw [create_collection_url, create_collection_url, h0]
  · rw [insert_document_urls, List.length_map]
  · intro i hi
    rw [insert_document_urls, List.getElem?_map]

/-- Witness for C10 at a two-entry-point configuration and a one-entry-point
configuration sharing the first entry. -/
theorem topology_ops_use_first_endpoint_w :
    (["http://h1", "http://h2"] : List String) ≠ []
    ∧ create_database_url ⟨["http://h1", "http://h2"], "root", "", "t_"⟩
        = create_database_url ⟨["http://h1"], "root", "", "t_"⟩
    ∧ (database_exists_url ⟨["http://h1", "http://h2"], "root", "", "t_"⟩ "t_crud").isSome
        = true
    ∧ (insert_document_urls ⟨["http://h1", "http://h2"], "root", "", "t_"⟩
        "t_crud" "c1").length = 2 := by
  have h := topology_ops_use_first_endpoint
    ⟨["http://h1", "http://h2"], "root", "", "t_"⟩ ⟨["http://h1"], "root", "", "t_"⟩
    "t_crud" "c1" (by decide) rfl
  exact ⟨by decide, h.2.2.2.2.2.1, h.2.2.1, h.2.2.2.2.2.2.2.2.2.2.1⟩
